import Mathlib

/-!
Shallow embedding of the coverage safeguard engine of the
`plugin-newsreporter` repository (`src/services/news-reporter-service.ts`).

Timestamps and counters are JavaScript numbers holding integral values;
they are modelled as `Int`.  The in-memory coverage cache
(`coverageStateCache`, a `Map`) and the durable memory table behind
`saveCoverageState` are modelled as association lists from room id to
`CoverageState`.  JavaScript aliasing matters: `getCoverageState` returns
the cached object by reference, so a field assignment on the returned
object is immediately visible through the cache, independently of whether
the subsequent persistence write succeeds; the embedding reflects this by
updating the cache at the point of the field assignment.  Fallible
persistence is modelled by a `persistOk : Bool` parameter: the `try`
block of `saveCoverageState` either runs to completion (upserting the
durable row and then calling `cache.set`) or fails before `cache.set`.
-/

namespace NewsReporter

/-- `OutputRoomConfig` from `src/types.ts` (the fields the engine reads). -/
structure OutputRoomConfig where
  name : String
  platform : String
  cadenceMs : Option Int := none
  deriving Repr, DecidableEq

/-- The fields of `reporterConfig` consumed by the coverage engine, with the
defaults from the `NewsReporterService` constructor. -/
structure ReporterConfig where
  defaultCadenceMs : Int := 7200000
  breakingOverride : Bool := true
  dailyMentionCap : Int := 15
  strikeMuteHours : Int := 24
  strikeDecayHours : Int := 48
  deriving Repr, DecidableEq

/-- `CoverageState` from `src/types.ts` (the fields the engine reads;
`mutedUntil` is optional). -/
structure CoverageState where
  roomId : String
  roomName : String
  platform : String
  lastMentionAt : Int
  mentionCount24h : Int
  cadenceMs : Int
  strikes : Int
  mutedUntil : Option Int := none
  deriving Repr, DecidableEq

abbrev StateMap := List (String × CoverageState)
abbrev RoomMap := List (String × OutputRoomConfig)

def mapLookup {α : Type} : List (String × α) → String → Option α
  | [], _ => none
  | (k, v) :: rest, k0 => if k = k0 then some v else mapLookup rest k0

def mapInsert {α : Type} : List (String × α) → String → α → List (String × α)
  | [], k0, v0 => [(k0, v0)]
  | (k, v) :: rest, k0, v0 =>
      if k = k0 then (k0, v0) :: rest else (k, v) :: mapInsert rest k0 v0

def MS_PER_HOUR : Int := 3600000

def ONE_DAY_MS : Int := 86400000

/-- `roomConfig.cadenceMs || this.reporterConfig.defaultCadenceMs`:
JavaScript `||` falls through on the falsy value `0` as well as on an
absent field. -/
def effectiveCadence (rc : OutputRoomConfig) (cfg : ReporterConfig) : Int :=
  match rc.cadenceMs with
  | some c => if c = 0 then cfg.defaultCadenceMs else c
  | none => cfg.defaultCadenceMs

/-- The service holds the in-memory cache and the durable
`reporter_coverage_state` table. -/
structure Desk where
  store : StateMap
  cache : StateMap
  deriving Repr, DecidableEq

/-- `getCoverageState`: a plain cache lookup. -/
def getCoverageState (d : Desk) (roomId : String) : Option CoverageState :=
  mapLookup d.cache roomId

/-- `saveCoverageState`: inside its `try`, upsert the durable row for
`state.roomId` and then `coverageStateCache.set(state.roomId, state)`.
On a persistence failure the error is logged and nothing past the failing
await runs, so neither the store nor the `cache.set` happens. -/
def saveCoverageState (persistOk : Bool) (d : Desk) (st : CoverageState) : Desk :=
  if persistOk then
    { store := mapInsert d.store st.roomId st,
      cache := mapInsert d.cache st.roomId st }
  else d

/-- The `else` branch of `recordMention`: assign `lastMentionAt = now`,
increment `mentionCount24h`, then compare the (already reassigned)
`lastMentionAt` against `now - 24h`. -/
def mentionUpdate (st : CoverageState) (now : Int) : CoverageState :=
  let st1 := { st with lastMentionAt := now, mentionCount24h := st.mentionCount24h + 1 }
  let oneDayAgo := now - ONE_DAY_MS
  if st1.lastMentionAt < oneDayAgo then { st1 with mentionCount24h := 1 } else st1

/-- `recordMention(roomId)`, with `now` standing for `Date.now()`.
Unregistered rooms return before touching any state.  For an existing
state the field assignments mutate the cached object in place, so the
cache reflects them before `saveCoverageState` runs. -/
def recordMention (cfg : ReporterConfig) (rooms : RoomMap) (d : Desk)
    (roomId : String) (now : Int) (persistOk : Bool) : Desk :=
  match mapLookup rooms roomId with
  | none => d
  | some rc =>
    match mapLookup d.cache roomId with
    | none =>
        let st : CoverageState :=
          { roomId := roomId, roomName := rc.name, platform := rc.platform,
            lastMentionAt := now, mentionCount24h := 1,
            cadenceMs := effectiveCadence rc cfg, strikes := 0 }
        saveCoverageState persistOk d st
    | some st =>
        let st1 := mentionUpdate st now
        let d1 : Desk := { d with cache := mapInsert d.cache roomId st1 }
        saveCoverageState persistOk d1 st1

/-- The auto-mute tail of `recordStrike`: whenever `strikes >= 2`,
reassign `mutedUntil = now + strikeMuteHours * 3600000`. -/
def applyAutoMute (cfg : ReporterConfig) (st : CoverageState) (now : Int) : CoverageState :=
  if st.strikes ≥ 2 then
    { st with mutedUntil := some (now + cfg.strikeMuteHours * MS_PER_HOUR) }
  else st

/-- `recordStrike(roomId)`.  The registration check happens only in the
no-existing-state branch; an existing cached state is incremented in
place (visible through the cache) before `saveCoverageState` runs. -/
def recordStrike (cfg : ReporterConfig) (rooms : RoomMap) (d : Desk)
    (roomId : String) (now : Int) (persistOk : Bool) : Desk :=
  match mapLookup d.cache roomId with
  | none =>
    match mapLookup rooms roomId with
    | none => d
    | some rc =>
        let st : CoverageState :=
          { roomId := roomId, roomName := rc.name, platform := rc.platform,
            lastMentionAt := now, mentionCount24h := 0,
            cadenceMs := effectiveCadence rc cfg, strikes := 1 }
        saveCoverageState persistOk d (applyAutoMute cfg st now)
  | some st =>
        let st1 := { st with strikes := st.strikes + 1 }
        let st2 := applyAutoMute cfg st1 now
        let d1 : Desk := { d with cache := mapInsert d.cache roomId st2 }
        saveCoverageState persistOk d1 st2

/-- `state.mutedUntil && now < state.mutedUntil`: an absent field and the
falsy value `0` both fail the first conjunct. -/
def isMuted (st : CoverageState) (now : Int) : Bool :=
  match st.mutedUntil with
  | some m => decide (¬ m = 0 ∧ now < m)
  | none => false

/-- Verdict of the per-destination safeguard gauntlet inside
`coveragePumpTick` (`continue` at step 1, 2 or 3, or fall through). -/
inductive Verdict where
  | muted
  | capped
  | tooSoon
  | eligible
  deriving Repr, DecidableEq

/-- Steps 1-3 of the gauntlet in `coveragePumpTick`, in source order.
The tick consults no candidate items and never reads
`reporterConfig.breakingOverride`. -/
def evaluateGauntlet (cfg : ReporterConfig) (st : CoverageState) (now : Int) : Verdict :=
  if isMuted st now then .muted
  else if st.lastMentionAt > now - ONE_DAY_MS ∧ st.mentionCount24h ≥ cfg.dailyMentionCap then .capped
  else if now - st.lastMentionAt < st.cadenceMs then .tooSoon
  else .eligible

/-- Step 4 of the tick: opportunistic strike decay, reached only after the
three `continue` checks pass.  The assignment
`state.strikes = Math.max(0, state.strikes - 1)` mutates the object in
place, so when that object is the cached one the cache sees the new value
regardless of the persistence outcome. -/
def decayStep (cfg : ReporterConfig) (d : Desk) (st : CoverageState) (now : Int)
    (persistOk : Bool) : Desk :=
  if st.strikes > 0 ∧ now - st.lastMentionAt > cfg.strikeDecayHours * MS_PER_HOUR then
    let st1 := { st with strikes := max 0 (st.strikes - 1) }
    let d1 : Desk :=
      { d with cache :=
          if (mapLookup d.cache st.roomId).isSome then mapInsert d.cache st.roomId st1
          else d.cache }
    saveCoverageState persistOk d1 st1
  else d

/-- The body of the `for` loop of `coveragePumpTick` for one destination:
lazily initialize and persist the state, run the gauntlet, decay strikes,
and report whether the `Coverage gap detected` signal is emitted. -/
def processRoom (cfg : ReporterConfig) (rc : OutputRoomConfig) (roomId : String)
    (d : Desk) (now : Int) (persistOk : Bool) : Desk × Bool :=
  let existing := mapLookup d.cache roomId
  let st := existing.getD
    { roomId := roomId, roomName := rc.name, platform := rc.platform,
      lastMentionAt := 0, mentionCount24h := 0,
      cadenceMs := effectiveCadence rc cfg, strikes := 0 }
  let d1 := if existing.isNone then saveCoverageState persistOk d st else d
  match evaluateGauntlet cfg st now with
  | .muted => (d1, false)
  | .capped => (d1, false)
  | .tooSoon => (d1, false)
  | .eligible => (decayStep cfg d1 st now persistOk, true)

/-- The `for` loop of `coveragePumpTick` with fault injection: `fails`
marks destinations whose processing raises.  An exception leaves the
loop at once (the `try` wraps the whole loop, not its body), keeping the
side effects of the rooms already processed; the `Bool` component
records whether an exception reached the tick-level `catch`. -/
def tickLoop (cfg : ReporterConfig) (now : Int) (persistOk : Bool)
    (fails : String → Bool) :
    List (String × OutputRoomConfig) → Desk → List String → Desk × List String × Bool
  | [], d, emitted => (d, emitted, false)
  | (roomId, rc) :: rest, d, emitted =>
      if fails roomId then (d, emitted, true)
      else
        let pr := processRoom cfg rc roomId d now persistOk
        tickLoop cfg now persistOk fails rest pr.1
          (emitted ++ if pr.2 then [roomId] else [])

/-- `coveragePumpTick`: run the loop over the registered output rooms; the
surrounding `catch` logs any exception and returns normally, so the error
flag never escapes the tick. -/
def coveragePumpTick (cfg : ReporterConfig) (now : Int) (persistOk : Bool)
    (fails : String → Bool) (rooms : List (String × OutputRoomConfig)) (d : Desk) :
    Desk × List String :=
  let r := tickLoop cfg now persistOk fails rooms d []
  (r.1, r.2.1)

/-- Candidate story item as filtered by `story-prompt-provider.ts`
(`s.momentum === 'growing' && s.confidence > 0.8`); confidence is a
fractional score modelled as a rational. -/
structure CandidateItem where
  momentum : String
  confidence : ℚ
  deriving Repr, DecidableEq

/-- The breaking filter of `story-prompt-provider.ts`. -/
def isBreakingItem (s : CandidateItem) : Bool :=
  s.momentum == "growing" && decide (s.confidence > (8 : ℚ) / 10)

/-- A registered output room used as a concrete fixture. -/
def rcDiscord : OutputRoomConfig := { name := "news", platform := "discord" }

theorem mapLookup_insert_self {α : Type} (m : List (String × α)) (k : String) (v : α) :
    mapLookup (mapInsert m k v) k = some v := by
  induction m with
  | nil => simp [mapInsert, mapLookup]
  | cons hd tl ih =>
      obtain ⟨k1, v1⟩ := hd
      by_cases h : k1 = k <;> simp [mapInsert, mapLookup, h, ih]

/-- A state 25 hours stale with ten mentions on record. -/
def stStale25h : CoverageState :=
  { roomId := "r", roomName := "news", platform := "discord",
    lastMentionAt := 0, mentionCount24h := 10, cadenceMs := 7200000, strikes := 0 }

/-- C1: `recordMention` on an existing state never resets `mentionCount24h`
to 1, even when the previous `lastMentionAt` is more than 24 hours old:
the code reassigns `lastMentionAt = Date.now()` before comparing it
against `now - 24h`, so the reset branch is dead.  At the spec scenario
(previous mention 25 hours ago, ten mentions on record) the count becomes
11 where the spec requires 1. -/
theorem C1_reset_on_stale_never_fires :
    (getCoverageState
        (recordMention {} [("r", rcDiscord)]
          { store := [("r", stStale25h)], cache := [("r", stStale25h)] }
          "r" 90000000 true)
        "r").map (fun s => (s.mentionCount24h, s.lastMentionAt))
      = some (11, 90000000) := by decide

/-- C2: whenever `mutedUntil` is set to a time strictly after `now`, the
gauntlet verdict is `muted`, for every configuration and every other
field of the state; on a pump tick such a destination is skipped with no
state change and no coverage-gap signal. -/
theorem C2_mute_absolute_priority (cfg : ReporterConfig) (st : CoverageState)
    (now m : Int) (hm : st.mutedUntil = some m) (hlt : now < m) (hnow : 0 ≤ now) :
    evaluateGauntlet cfg st now = .muted ∧
    ∀ (rc : OutputRoomConfig) (d : Desk) (roomId : String) (persistOk : Bool),
      mapLookup d.cache roomId = some st →
      processRoom cfg rc roomId d now persistOk = (d, false) := by
  have hm0 : ¬ m = 0 := by omega
  have hmut : isMuted st now = true := by
    simp [isMuted, hm]
    exact ⟨hm0, hlt⟩
  refine ⟨by simp [evaluateGauntlet, hmut], ?_⟩
  intro rc d roomId persistOk hl
  simp [processRoom, hl, evaluateGauntlet, hmut]

/-- A muted state used to exercise the mute check concretely. -/
def stMutedNow : CoverageState :=
  { roomId := "r", roomName := "news", platform := "discord",
    lastMentionAt := 0, mentionCount24h := 99, cadenceMs := 1, strikes := 2,
    mutedUntil := some 100 }

/-- Witness for C2 at a concrete muted state and tick. -/
theorem C2_mute_absolute_priority_witness :
    processRoom {} rcDiscord "r"
        { store := [("r", stMutedNow)], cache := [("r", stMutedNow)] } 50 true
      = ({ store := [("r", stMutedNow)], cache := [("r", stMutedNow)] }, false) :=
  (C2_mute_absolute_priority {} stMutedNow 50 100 rfl (by decide) (by decide)).2
    rcDiscord _ "r" true rfl

/-- A state one hour past its last mention, with a two-hour cadence. -/
def stOneHourAgo : CoverageState :=
  { roomId := "r", roomName := "news", platform := "discord",
    lastMentionAt := 0, mentionCount24h := 1, cadenceMs := 7200000, strikes := 0 }

/-- C3: the breaking override is not implemented.  With the override flag
enabled by default and a candidate item that passes the provider's
breaking filter (momentum growing, confidence 0.9), a destination one
hour past its last mention with a two-hour cadence is still skipped as
too-soon on the pump tick: the gauntlet takes no candidate items and
never reads `breakingOverride`. -/
theorem C3_breaking_override_unimplemented :
    ReporterConfig.breakingOverride {} = true ∧
    isBreakingItem { momentum := "growing", confidence := 9/10 } = true ∧
    isBreakingItem { momentum := "growing", confidence := 5/10 } = false ∧
    evaluateGauntlet {} stOneHourAgo 3600000 = .tooSoon ∧
    processRoom {} rcDiscord "r"
        { store := [("r", stOneHourAgo)], cache := [("r", stOneHourAgo)] } 3600000 true
      = ({ store := [("r", stOneHourAgo)], cache := [("r", stOneHourAgo)] }, false) := by
  refine ⟨rfl, ?_, ?_, by decide, by decide⟩
  · simp [isBreakingItem]
    norm_num
  · simp [isBreakingItem]
    norm_num

theorem tickLoop_stops_at_first_fault (cfg : ReporterConfig) (now : Int)
    (persistOk : Bool) (fails : String → Bool)
    (rooms : List (String × OutputRoomConfig)) (d : Desk) (acc : List String) :
    ((tickLoop cfg now persistOk fails rooms d acc).1,
     (tickLoop cfg now persistOk fails rooms d acc).2.1) =
    ((tickLoop cfg now persistOk (fun _ => false)
        (rooms.takeWhile fun rm => !fails rm.1) d acc).1,
     (tickLoop cfg now persistOk (fun _ => false)
        (rooms.takeWhile fun rm => !fails rm.1) d acc).2.1) := by
  induction rooms generalizing d acc with
  | nil => simp [List.takeWhile, tickLoop]
  | cons hd rest ih =>
      obtain ⟨roomId, rc⟩ := hd
      by_cases h : fails roomId
      · simp [tickLoop, List.takeWhile, h]
      · simp only [tickLoop, List.takeWhile, h, Bool.not_false, if_false, if_true]
        exact ih _ _

/-- C4 counterexample: with two registered rooms, both of which would be
eligible and emit a coverage-gap signal on a fault-free tick, an
exception raised while processing the first room prevents the second
from being processed at all in that tick: no signal is emitted for it
and its state is never initialized. -/
theorem C4_first_fault_skips_rest :
    (coveragePumpTick {} 1000000000 true (fun r => r == "a")
        [("a", rcDiscord), ("b", rcDiscord)] { store := [], cache := [] }).2 = [] ∧
    getCoverageState
        (coveragePumpTick {} 1000000000 true (fun r => r == "a")
          [("a", rcDiscord), ("b", rcDiscord)] { store := [], cache := [] }).1 "b" = none ∧
    (coveragePumpTick {} 1000000000 true (fun _ => false)
        [("a", rcDiscord), ("b", rcDiscord)] { store := [], cache := [] }).2
      = ["a", "b"] := by decide

/-- C4 amended: an exception during a tick is caught at the tick level
(the tick always returns normally), the destinations before the first
failing one are processed exactly as on a fault-free tick, and the
destinations from the first failing one onward are not processed in that
tick. -/
theorem C4_tick_fault_containment (cfg : ReporterConfig) (now : Int)
    (persistOk : Bool) (fails : String → Bool)
    (rooms : List (String × OutputRoomConfig)) (d : Desk) :
    coveragePumpTick cfg now persistOk fails rooms d =
    coveragePumpTick cfg now persistOk (fun _ => false)
      (rooms.takeWhile fun rm => !fails rm.1) d := by
  have h := tickLoop_stops_at_first_fault cfg now persistOk fails rooms d []
  simp only [coveragePumpTick]
  exact Prod.ext (congrArg Prod.fst h) (congrArg Prod.snd h)

/-- C5 counterexample: for an existing cached state, `recordMention` with
a failing persistence write still changes the state visible through
`getCoverageState`: the cached object is mutated in place before the
write is attempted.  Here the pre-mutation count 1 is observed as 2 even
though the write failed (and the durable store keeps the old value). -/
theorem C5_failed_persist_still_visible :
    (getCoverageState
        (recordMention {} [("r", rcDiscord)]
          { store := [("r", stOneHourAgo)], cache := [("r", stOneHourAgo)] }
          "r" 3600000 false)
        "r").map (fun s => s.mentionCount24h) = some 2 ∧
    stOneHourAgo.mentionCount24h = 1 ∧
    (recordMention {} [("r", rcDiscord)]
        { store := [("r", stOneHourAgo)], cache := [("r", stOneHourAgo)] }
        "r" 3600000 false).store = [("r", stOneHourAgo)] := by decide

/-- C5 amended: a failing persistence write never updates the durable
store, and a mutation that would create a new `CoverageState` leaves the
service unchanged (the new state only enters the cache through
`saveCoverageState`); but an already-cached state is mutated in place,
so its updated fields remain visible through `getCoverageState` even
when the write fails (see the counterexample). -/
theorem C5_failed_persist_effects (cfg : ReporterConfig) (rooms : RoomMap)
    (d : Desk) (roomId : String) (now : Int) :
    ((recordMention cfg rooms d roomId now false).store = d.store ∧
     (recordStrike cfg rooms d roomId now false).store = d.store) ∧
    (mapLookup d.cache roomId = none →
      recordMention cfg rooms d roomId now false = d ∧
      recordStrike cfg rooms d roomId now false = d) := by
  cases hr : mapLookup rooms roomId <;> cases hc : mapLookup d.cache roomId <;>
    simp [recordMention, recordStrike, saveCoverageState, hr, hc]

/-- Witness for C5 at a registered room with no cached state. -/
theorem C5_failed_persist_effects_witness :
    recordMention {} [("r", rcDiscord)] { store := [], cache := [] } "r" 5 false
      = { store := [], cache := [] } ∧
    recordStrike {} [("r", rcDiscord)] { store := [], cache := [] } "r" 5 false
      = { store := [], cache := [] } :=
  (C5_failed_persist_effects {} [("r", rcDiscord)]
    { store := [], cache := [] } "r" 5).2 rfl

theorem recordStrike_fresh (cfg : ReporterConfig) (rooms : RoomMap) (d : Desk)
    (roomId : String) (now : Int) (rc : OutputRoomConfig)
    (hreg : mapLookup rooms roomId = some rc)
    (hnone : mapLookup d.cache roomId = none) :
    mapLookup (recordStrike cfg rooms d roomId now true).cache roomId =
      some (applyAutoMute cfg
        { roomId := roomId, roomName := rc.name, platform := rc.platform,
          lastMentionAt := now, mentionCount24h := 0,
          cadenceMs := effectiveCadence rc cfg, strikes := 1 } now) := by
  have hpres : (applyAutoMute cfg
      { roomId := roomId, roomName := rc.name, platform := rc.platform,
        lastMentionAt := now, mentionCount24h := 0,
        cadenceMs := effectiveCadence rc cfg, strikes := 1 } now).roomId = roomId := by
    unfold applyAutoMute
    split <;> rfl
  simp [recordStrike, hnone, hreg, saveCoverageState, hpres, mapLookup_insert_self]

theorem recordStrike_existing (cfg : ReporterConfig) (rooms : RoomMap) (d : Desk)
    (roomId : String) (now : Int) (persistOk : Bool) (st : CoverageState)
    (hc : mapLookup d.cache roomId = some st) (hid : st.roomId = roomId) :
    mapLookup (recordStrike cfg rooms d roomId now persistOk).cache roomId =
      some (applyAutoMute cfg { st with strikes := st.strikes + 1 } now) := by
  have hpres : (applyAutoMute cfg { st with strikes := st.strikes + 1 } now).roomId
      = roomId := by
    unfold applyAutoMute
    split <;> simpa using hid
  cases persistOk <;>
    simp [recordStrike, hc, saveCoverageState, hpres, mapLookup_insert_self]

/-- C6: on a fresh registered destination, two `recordStrike` calls leave
`strikes = 2` and `mutedUntil = now + 24h` (default mute duration) keyed
to the second call's time, and a third strike while already muted
re-extends the mute from its own current time. -/
theorem C6_two_strikes_mute_then_extend (rooms : RoomMap) (roomId : String)
    (rc : OutputRoomConfig) (d : Desk) (t1 t2 t3 : Int)
    (hreg : mapLookup rooms roomId = some rc)
    (hnone : mapLookup d.cache roomId = none) :
    ((getCoverageState
        (recordStrike {} rooms (recordStrike {} rooms d roomId t1 true) roomId t2 true)
        roomId).map fun s => (s.strikes, s.mutedUntil)) = some (2, some (t2 + 86400000)) ∧
    ((getCoverageState
        (recordStrike {} rooms
          (recordStrike {} rooms (recordStrike {} rooms d roomId t1 true) roomId t2 true)
          roomId t3 true)
        roomId).map fun s => (s.strikes, s.mutedUntil)) = some (3, some (t3 + 86400000)) := by
  have e1 : mapLookup (recordStrike {} rooms d roomId t1 true).cache roomId =
      some { roomId := roomId, roomName := rc.name, platform := rc.platform,
             lastMentionAt := t1, mentionCount24h := 0,
             cadenceMs := effectiveCadence rc {}, strikes := 1 } := by
    rw [recordStrike_fresh {} rooms d roomId t1 rc hreg hnone]
    simp [applyAutoMute]
  have e2 : mapLookup
      (recordStrike {} rooms (recordStrike {} rooms d roomId t1 true) roomId t2 true).cache
      roomId =
      some { roomId := roomId, roomName := rc.name, platform := rc.platform,
             lastMentionAt := t1, mentionCount24h := 0,
             cadenceMs := effectiveCadence rc {}, strikes := 2,
             mutedUntil := some (t2 + 86400000) } := by
    rw [recordStrike_existing {} rooms _ roomId t2 true _ e1 rfl]
    simp [applyAutoMute, MS_PER_HOUR]
  have e3 : mapLookup
      (recordStrike {} rooms
        (recordStrike {} rooms (recordStrike {} rooms d roomId t1 true) roomId t2 true)
        roomId t3 true).cache roomId =
      some { roomId := roomId, roomName := rc.name, platform := rc.platform,
             lastMentionAt := t1, mentionCount24h := 0,
             cadenceMs := effectiveCadence rc {}, strikes := 3,
             mutedUntil := some (t3 + 86400000) } := by
    rw [recordStrike_existing {} rooms _ roomId t3 true _ e2 rfl]
    simp [applyAutoMute, MS_PER_HOUR]
  simp [getCoverageState, e2, e3]

/-- Witness for C6 on a concrete fresh destination. -/
theorem C6_two_strikes_mute_then_extend_witness :
    ((getCoverageState
        (recordStrike {} [("r", rcDiscord)]
          (recordStrike {} [("r", rcDiscord)] { store := [], cache := [] } "r" 0 true)
          "r" 10 true)
        "r").map fun s => (s.strikes, s.mutedUntil)) = some (2, some (10 + 86400000)) ∧
    ((getCoverageState
        (recordStrike {} [("r", rcDiscord)]
          (recordStrike {} [("r", rcDiscord)]
            (recordStrike {} [("r", rcDiscord)] { store := [], cache := [] } "r" 0 true)
            "r" 10 true)
          "r" 20 true)
        "r").map fun s => (s.strikes, s.mutedUntil)) = some (3, some (20 + 86400000)) :=
  C6_two_strikes_mute_then_extend [("r", rcDiscord)] "r" rcDiscord
    { store := [], cache := [] } 0 10 20 rfl rfl

/-- A muted destination whose last mention is 49 hours stale: its strike
never decays while the mute holds. -/
def stMutedStale : CoverageState :=
  { roomId := "r", roomName := "news", platform := "discord",
    lastMentionAt := 0, mentionCount24h := 0, cadenceMs := 7200000, strikes := 1,
    mutedUntil := some 180000000 }

/-- C7 counterexample: a registered destination with `strikes = 1` and a
last mention 49 hours old (decay window 48 hours) keeps `strikes = 1`
after a pump tick, because it is muted and the mute `continue` is
reached before the decay step; the claim's unconditional decrement to 0
fails here. -/
theorem C7_no_decay_while_muted :
    (176400000 - stMutedStale.lastMentionAt > 48 * MS_PER_HOUR ∧
     stMutedStale.strikes = 1) ∧
    ((getCoverageState
        (coveragePumpTick {} 176400000 true (fun _ => false) [("r", rcDiscord)]
          { store := [("r", stMutedStale)], cache := [("r", stMutedStale)] }).1
        "r").map fun s => s.strikes) = some 1 := by decide

/-- C7 amended: the decay step runs only after the gauntlet's three
`continue` checks pass; for a destination that evaluates eligible, has
`strikes > 0`, and whose last mention is older than the decay window,
the tick decrements `strikes` by one and still emits the coverage-gap
signal. -/
theorem C7_decay_when_eligible (cfg : ReporterConfig) (rc : OutputRoomConfig)
    (roomId : String) (d : Desk) (st : CoverageState) (now : Int) (persistOk : Bool)
    (hc : mapLookup d.cache roomId = some st) (hid : st.roomId = roomId)
    (helig : evaluateGauntlet cfg st now = .eligible)
    (hstr : st.strikes > 0)
    (hdk : now - st.lastMentionAt > cfg.strikeDecayHours * MS_PER_HOUR) :
    ((getCoverageState (processRoom cfg rc roomId d now persistOk).1 roomId).map
      fun s => s.strikes) = some (st.strikes - 1) ∧
    (processRoom cfg rc roomId d now persistOk).2 = true := by
  have hmax : max 0 (st.strikes - 1) = st.strikes - 1 := by omega
  cases persistOk <;>
    simp [processRoom, hc, helig, decayStep, hstr, hdk, saveCoverageState,
      getCoverageState, hid, mapLookup_insert_self, hmax]

/-- The spec's decay scenario: one strike, last mention 49 hours old. -/
def stDecay : CoverageState :=
  { roomId := "r", roomName := "news", platform := "discord",
    lastMentionAt := 0, mentionCount24h := 0, cadenceMs := 7200000, strikes := 1 }

/-- Witness for C7 at the spec's decay scenario. -/
theorem C7_decay_when_eligible_witness :
    ((getCoverageState
        (processRoom {} rcDiscord "r"
          { store := [("r", stDecay)], cache := [("r", stDecay)] } 176400000 true).1
        "r").map fun s => s.strikes) = some 0 ∧
    (processRoom {} rcDiscord "r"
        { store := [("r", stDecay)], cache := [("r", stDecay)] } 176400000 true).2 = true := by
  have h := C7_decay_when_eligible {} rcDiscord "r"
    { store := [("r", stDecay)], cache := [("r", stDecay)] } stDecay 176400000 true
    rfl rfl (by decide) (by decide) (by decide)
  exact ⟨by simpa using h.1, h.2⟩

/-- C8: for a non-muted destination, a last mention inside the last 24
hours together with `mentionCount24h ≥ dailyMentionCap` yields the
capped verdict whatever the cadence situation; a last mention at least
24 hours old can never produce the capped verdict, whatever the count. -/
theorem C8_daily_cap (cfg : ReporterConfig) (st : CoverageState) (now : Int)
    (hnm : isMuted st now = false) :
    (st.lastMentionAt > now - ONE_DAY_MS → st.mentionCount24h ≥ cfg.dailyMentionCap →
       evaluateGauntlet cfg st now = .capped) ∧
    (st.lastMentionAt ≤ now - ONE_DAY_MS → evaluateGauntlet cfg st now ≠ .capped) := by
  constructor
  · intro h1 h2
    simp [evaluateGauntlet, hnm, h1, h2]
  · intro h1
    have hno : ¬ (st.lastMentionAt > now - ONE_DAY_MS ∧
        st.mentionCount24h ≥ cfg.dailyMentionCap) := by
      rintro ⟨ha, _⟩
      omega
    simp only [evaluateGauntlet, hnm, if_false, hno, Bool.false_eq_true]
    split <;> simp

/-- A destination at the cap with a fresh mention and elapsed cadence. -/
def stCapHit : CoverageState :=
  { roomId := "r", roomName := "news", platform := "discord",
    lastMentionAt := 86400000, mentionCount24h := 15, cadenceMs := 1000, strikes := 0 }

/-- A destination far past the 24-hour window with a huge count. -/
def stCapOld : CoverageState :=
  { roomId := "r", roomName := "news", platform := "discord",
    lastMentionAt := 0, mentionCount24h := 999, cadenceMs := 1000, strikes := 0 }

/-- Witness for C8 at the spec's cap scenario and at a stale state. -/
theorem C8_daily_cap_witness :
    evaluateGauntlet {} stCapHit 90000000 = .capped ∧
    evaluateGauntlet {} stCapOld 90000000 ≠ .capped :=
  ⟨(C8_daily_cap {} stCapHit 90000000 (by decide)).1 (by decide) (by decide),
   (C8_daily_cap {} stCapOld 90000000 (by decide)).2 (by decide)⟩

/-- C9 counterexample: for a destination id with no registered policy but
with a cached `CoverageState` (as hydrated from durable storage by
`loadCoverageState`, which does not consult the room registry),
`recordStrike` is not a no-op: the registration check sits only in the
no-existing-state branch, so the orphan state's `strikes` is incremented
and persisted. -/
theorem C9_strike_mutates_orphan_state :
    mapLookup ([] : RoomMap) "r" = none ∧
    stOneHourAgo.strikes = 0 ∧
    ((getCoverageState
        (recordStrike {} []
          { store := [("r", stOneHourAgo)], cache := [("r", stOneHourAgo)] }
          "r" 1000 true)
        "r").map fun s => s.strikes) = some 1 := by decide

/-- C9 amended: on an unregistered destination id, `recordMention` is
always a no-op, and `recordStrike` is a no-op whenever no
`CoverageState` exists for the id — in particular neither ever creates
a state; but `recordStrike` does mutate a pre-existing cached state of
an unregistered id (see the counterexample). -/
theorem C9_unregistered_no_create (cfg : ReporterConfig) (rooms : RoomMap)
    (d : Desk) (roomId : String) (now : Int) (persistOk : Bool)
    (hunreg : mapLookup rooms roomId = none) :
    recordMention cfg rooms d roomId now persistOk = d ∧
    (mapLookup d.cache roomId = none →
      recordStrike cfg rooms d roomId now persistOk = d) := by
  cases hc : mapLookup d.cache roomId <;>
    simp [recordMention, recordStrike, hunreg, hc]

/-- Witness for C9 on an empty registry and empty state. -/
theorem C9_unregistered_no_create_witness :
    recordMention {} [] { store := [], cache := [] } "r" 7 true
      = { store := [], cache := [] } ∧
    recordStrike {} [] { store := [], cache := [] } "r" 7 true
      = { store := [], cache := [] } :=
  ⟨(C9_unregistered_no_create {} [] { store := [], cache := [] } "r" 7 true rfl).1,
   (C9_unregistered_no_create {} [] { store := [], cache := [] } "r" 7 true rfl).2 rfl⟩

/-- C10: `recordStrike` on a registered destination with no existing
state creates one with `strikes = 1`, `mentionCount24h = 0`, and
`lastMentionAt` equal to the strike time (not 0); consequently no pump
tick occurring within the decay window of the strike can decay that
strike, since decay measures elapsed time from `lastMentionAt`. -/
theorem C10_strike_created_state (cfg : ReporterConfig) (rooms : RoomMap)
    (rc : OutputRoomConfig) (d : Desk) (roomId : String) (now : Int)
    (hreg : mapLookup rooms roomId = some rc)
    (hnone : mapLookup d.cache roomId = none) :
    ((getCoverageState (recordStrike cfg rooms d roomId now true) roomId).map
        fun s => (s.strikes, s.mentionCount24h, s.lastMentionAt)) = some (1, 0, now) ∧
    ∀ (rc2 : OutputRoomConfig) (t : Int) (persistOk : Bool),
      t - now ≤ cfg.strikeDecayHours * MS_PER_HOUR →
      ((getCoverageState
          (processRoom cfg rc2 roomId (recordStrike cfg rooms d roomId now true) t
            persistOk).1
          roomId).map fun s => s.strikes) = some 1 := by
  have e1 : mapLookup (recordStrike cfg rooms d roomId now true).cache roomId =
      some { roomId := roomId, roomName := rc.name, platform := rc.platform,
             lastMentionAt := now, mentionCount24h := 0,
             cadenceMs := effectiveCadence rc cfg, strikes := 1 } := by
    rw [recordStrike_fresh cfg rooms d roomId now rc hreg hnone]
    simp [applyAutoMute]
  refine ⟨by simp [getCoverageState, e1], ?_⟩
  intro rc2 t persistOk hle
  have hng : ¬ (t - now > cfg.strikeDecayHours * MS_PER_HOUR) := by omega
  rcases hev : evaluateGauntlet cfg
      { roomId := roomId, roomName := rc.name, platform := rc.platform,
        lastMentionAt := now, mentionCount24h := 0,
        cadenceMs := effectiveCadence rc cfg, strikes := 1 } t with _ | _ | _ | _ <;>
    simp [processRoom, e1, hev, decayStep, hng, getCoverageState]

/-- Witness for C10: a strike-created state at time 1000 does not decay
on a tick at the far edge of the 48-hour window. -/
theorem C10_strike_created_state_witness :
    ((getCoverageState
        (recordStrike {} [("r", rcDiscord)] { store := [], cache := [] } "r" 1000 true)
        "r").map fun s => (s.strikes, s.mentionCount24h, s.lastMentionAt))
      = some (1, 0, 1000) ∧
    ((getCoverageState
        (processRoom {} rcDiscord "r"
          (recordStrike {} [("r", rcDiscord)] { store := [], cache := [] } "r" 1000 true)
          172801000 true).1
        "r").map fun s => s.strikes) = some 1 := by
  have h := C10_strike_created_state {} [("r", rcDiscord)] rcDiscord
    { store := [], cache := [] } "r" 1000 rfl rfl
  exact ⟨h.1, h.2 rcDiscord 172801000 true (by decide)⟩

end NewsReporter
